import Mathlib

/-!
Verification of the OneMCP remote tool-invocation proxy and the Firebase
Studio migration helpers.

The proxy implementation (`onemcp_server.ts`) is not part of the provided
sources; only its unit tests, its registry (`src/mcp/onemcp/index.ts`) and
the migration script (`src/firebase_studio/migrate.ts`) are.  The proxy is
therefore modelled from the specification (sections 3, 4, 6 and 7), while
the registry and the settings rewrite are embedded directly from the
TypeScript sources.

Effectful TypeScript code is embedded as explicit state passing: the
collaborators (Precondition Gate, Transport Client) become an `Env` record
of oracles, and each operation returns, next to its `Except` result, the
updated per-instance state and the ordered list of collaborator calls it
made (its event trace).
-/

/-- A JSON value, the payload type of request params, response bodies and
tool schemas.  Mirrors the untyped `any` values flowing through the
TypeScript code. -/
inductive JSON where
  | null
  | bool (b : Bool)
  | num (n : Int)
  | str (s : String)
  | arr (elems : List JSON)
  | obj (fields : List (String × JSON))

/-- Field access on a JSON object: `j.lookup k` is the value of the first
field named `k`, or `none` when `j` is not an object or has no such field
(TypeScript `j?.[k]`). -/
def JSON.lookup : JSON → String → Option JSON
  | .obj fields, key => fields.lookup key
  | _, _ => none

/-- `strHasPrefix p s` is true when the string `s` starts with `p`
(TypeScript `s.startsWith(p)`), computed on the character lists. -/
def strHasPrefix (p s : String) : Bool := p.data.isPrefixOf s.data

/-- Modelled from the spec: the Access Policy attached to a proxy instance
(spec section 3).  The registry in `src/mcp/onemcp/index.ts` constructs one
instance without a `requiresProject` field, so the field is optional:
`none` models the TypeScript `undefined`. -/
structure AccessPolicy where
  requiresAuth : Bool
  requiresProject : Option Bool
deriving DecidableEq

/-- Modelled from the spec: a Proxy Instance `{feature, originUrl,
accessPolicy}` (spec section 3); the class `OneMcpServer` of the missing
`onemcp_server.ts`. -/
structure OneMcpServer where
  feature : String
  originUrl : String
  accessPolicy : AccessPolicy
deriving DecidableEq

/-- Modelled from the spec: the only mutable per-instance state, the
request id counter (spec sections 3 and 5). -/
structure ProxyState where
  counter : Nat
deriving DecidableEq

/-- Modelled from the spec: a Remote Tool Descriptor `{name, description,
inputSchema}` as received from discovery (spec section 3); `description`
is optional in the discovery payloads exercised by the unit tests, and
`inputSchema` is opaque to the proxy. -/
structure RemoteToolDescriptor where
  name : String
  description : Option String
  inputSchema : JSON

/-- Modelled from the spec: the `{requiresAuth, requiresProject, feature}`
metadata attached to every Local Tool Wrapper (spec sections 3 and 6). -/
structure ToolMeta where
  requiresAuth : Bool
  requiresProject : Option Bool
  feature : String
deriving DecidableEq

/-- Modelled from the spec: a Local Tool Wrapper (spec section 3).  The
`remoteName` field is the unnamespaced remote name captured at discovery
for the wrapper's invoke closure. -/
structure ServerTool where
  name : String
  description : Option String
  inputSchema : JSON
  meta : ToolMeta
  remoteName : String

/-- Modelled from the spec: the JSON-RPC Request Envelope `{jsonrpc: "2.0",
id, method, params}` (spec section 3). -/
structure RequestEnvelope where
  jsonrpc : String
  id : Nat
  method : String
  params : JSON

/-- Modelled from the spec: one outbound transport request — HTTP method,
URL, envelope body and headers (spec section 6, Transport Client
interface). -/
structure HttpRequest where
  method : String
  url : String
  body : RequestEnvelope
  headers : List (String × String)

/-- Modelled from the spec: the caller-supplied Invocation Context with its
optional project identifier (spec section 3). -/
structure InvocationContext where
  projectId : Option String

/-- Modelled from the spec: a failure reported by the Precondition Gate
(spec section 6); opaque to the proxy, which propagates it unchanged. -/
structure GateError where
  message : String
deriving DecidableEq

/-- Modelled from the spec: a structured transport rejection that may carry
`{status, context: {body}}` (spec section 6, Transport Client
interface). -/
structure TransportError where
  message : String
  status : Option Nat
  contextBody : Option JSON

/-- Modelled from the spec: the error taxonomy surfaced by the proxy (spec
section 7).  `gate` and `transport` are the identity injections used to
rethrow a collaborator's error unchanged. -/
inductive ProxyError where
  | remoteFetch (message : String)
  | schemaValidation (message : String)
  | gate (e : GateError)
  | transport (e : TransportError)

/-- Modelled from the spec: a tool-level call result `{content: [...],
isError?: bool}` (spec section 6). -/
structure CallToolResult where
  content : List JSON
  isError : Option Bool

/-- One collaborator call made by the proxy, recorded in program order:
either a Precondition Gate check with its exact arguments, or one outbound
transport request. -/
inductive Event where
  | gateCall (projectId : Option String) (originUrl : String)
      (feature : String) (requiresProject : Option Bool)
  | transportCall (req : HttpRequest)

/-- The external collaborators (spec section 6): the Precondition Gate
(`ensure`) and the Transport Client, modelled as oracles.  A transport
rejection and a non-success HTTP status both appear as `Except.error`,
matching the apiv2 client which throws on non-2xx. -/
structure Env where
  gate : Option String → String → String → Option Bool → Except GateError Unit
  transport : HttpRequest → Except TransportError JSON

/-- Modelled from the spec: schema validation of one Remote Tool Descriptor
`{name, description?, inputSchema}` (spec sections 3 and 6). -/
def parseDescriptor (j : JSON) : Option RemoteToolDescriptor :=
  match j.lookup "name" with
  | some (.str n) =>
    match j.lookup "inputSchema" with
    | some schema =>
      match j.lookup "description" with
      | some (.str d) => some ⟨n, some d, schema⟩
      | _ => some ⟨n, none, schema⟩
    | none => none
  | _ => none

/-- Modelled from the spec: schema validation of a discovery response body,
which must match `{result: {tools: [descriptor, ...]}}` (spec sections 4.1
and 6); `none` signals a Schema Validation Error. -/
def parseListToolsBody (body : JSON) : Option (List RemoteToolDescriptor) :=
  match body.lookup "result" with
  | some result =>
    match result.lookup "tools" with
    | some (.arr items) => items.mapM parseDescriptor
    | _ => none
  | none => none

/-- Modelled from the spec: schema validation of a tool-call result object
`{content: [...], isError?: bool}` (spec section 6). -/
def parseCallToolResult (j : JSON) : Option CallToolResult :=
  match j.lookup "content" with
  | some (.arr items) =>
    match j.lookup "isError" with
    | some (.bool b) => some ⟨items, some b⟩
    | none => some ⟨items, none⟩
    | some _ => none
  | _ => none

/-- Modelled from the spec: schema validation of a successful invocation
response body, which must match `{result: {content: [...], isError?:
bool}}` (spec sections 4.2 step 5 and 6). -/
def parseInvokeSuccessBody (body : JSON) : Option CallToolResult :=
  match body.lookup "result" with
  | some r => parseCallToolResult r
  | none => none

/-- Modelled from the spec: the unwrap test of spec section 4.2 step 6 — a
transport rejection carries an embedded tool-level error result exactly
when its structured context body matches `{result: {isError: true,
content: [...]}}`; in that case this returns the embedded result. -/
def embeddedErrorResult (e : TransportError) : Option CallToolResult :=
  match e.contextBody with
  | some body =>
    match parseInvokeSuccessBody body with
    | some res => if res.isError = some true then some res else none
    | none => none
  | none => none

/-- Modelled from the spec: wrapping one Remote Tool Descriptor as a Local
Tool Wrapper — textual namespacing `<feature>_<remoteName>`, metadata
mirroring the owning instance's configuration, and the captured
unnamespaced remote name (spec section 3). -/
def wrapTool (s : OneMcpServer) (d : RemoteToolDescriptor) : ServerTool :=
  { name := s.feature ++ "_" ++ d.name
  , description := d.description
  , inputSchema := d.inputSchema
  , meta := { requiresAuth := s.accessPolicy.requiresAuth
            , requiresProject := s.accessPolicy.requiresProject
            , feature := s.feature }
  , remoteName := d.name }

/-- Modelled from the spec: the discovery request — a `tools/list` envelope
with empty params, no extra headers, and a fresh id drawn from the
per-instance counter, incremented before the request (spec sections 3 and
4.1). -/
def discoveryRequest (s : OneMcpServer) (st : ProxyState) : HttpRequest :=
  { method := "POST"
  , url := s.originUrl
  , body := { jsonrpc := "2.0", id := st.counter + 1
            , method := "tools/list", params := .obj [] }
  , headers := [] }

/-- The outcome of one `listTools` call: its result, the updated
per-instance state, and the trace of collaborator calls. -/
structure ListOutcome where
  result : Except ProxyError (List ServerTool)
  state : ProxyState
  events : List Event

/-- Modelled from the spec: `listTools` of the missing `onemcp_server.ts`
(spec section 4.1).  Issues the discovery request; a transport failure
becomes a Remote Fetch Error whose message identifies the failed remote
tools fetch; a body that does not match `{result: {tools: [...]}}` becomes
a Schema Validation Error; otherwise every descriptor is wrapped, in
order. -/
def listTools (s : OneMcpServer) (env : Env) (st : ProxyState) : ListOutcome :=
  let req := discoveryRequest s st
  let st' : ProxyState := { counter := st.counter + 1 }
  match env.transport req with
  | .error _ =>
    { result := .error (.remoteFetch ("Failed to fetch remote tools from " ++ s.originUrl))
    , state := st'
    , events := [.transportCall req] }
  | .ok body =>
    match parseListToolsBody body with
    | some descs =>
      { result := .ok (descs.map (wrapTool s)), state := st', events := [.transportCall req] }
    | none =>
      { result := .error (.schemaValidation "tools/list response body did not match the expected shape")
      , state := st'
      , events := [.transportCall req] }

/-- Modelled from the spec: the headers of an invocation request — the
`x-goog-user-project` header is attached exactly when the context carries a
project id (spec section 4.2 step 3). -/
def invocationHeaders (ctx : InvocationContext) : List (String × String) :=
  match ctx.projectId with
  | some pid => [("x-goog-user-project", pid)]
  | none => []

/-- Modelled from the spec: the invocation request — a `tools/call`
envelope with the unnamespaced remote tool name and the caller's arguments,
a fresh id drawn from the per-instance counter, incremented before the
request, and the project header when known (spec section 4.2 steps 2 and
3). -/
def invocationRequest (s : OneMcpServer) (remoteName : String) (args : JSON)
    (ctx : InvocationContext) (st : ProxyState) : HttpRequest :=
  { method := "POST"
  , url := s.originUrl
  , body := { jsonrpc := "2.0", id := st.counter + 1, method := "tools/call"
            , params := .obj [("name", .str remoteName), ("arguments", args)] }
  , headers := invocationHeaders ctx }

/-- The outcome of one `callTool` invocation: its result, the updated
per-instance state, and the trace of collaborator calls. -/
structure CallOutcome where
  result : Except ProxyError CallToolResult
  state : ProxyState
  events : List Event

/-- Modelled from the spec: the invocation path of the missing
`onemcp_server.ts` (spec section 4.2).  The Precondition Gate is called
first with `(context.projectId, originUrl, feature,
accessPolicy.requiresProject)`; a gate failure propagates unchanged and no
transport request is issued.  Otherwise the `tools/call` envelope is
posted; on success the response's `result` is validated and returned; on
rejection an embedded tool-level error result is unwrapped into a
successful return, and any other error is rethrown unchanged. -/
def callTool (s : OneMcpServer) (remoteName : String) (args : JSON)
    (ctx : InvocationContext) (env : Env) (st : ProxyState) : CallOutcome :=
  let gateEv : Event :=
    .gateCall ctx.projectId s.originUrl s.feature s.accessPolicy.requiresProject
  match env.gate ctx.projectId s.originUrl s.feature s.accessPolicy.requiresProject with
  | .error e => { result := .error (.gate e), state := st, events := [gateEv] }
  | .ok _ =>
    let req := invocationRequest s remoteName args ctx st
    let st' : ProxyState := { counter := st.counter + 1 }
    match env.transport req with
    | .ok body =>
      match parseInvokeSuccessBody body with
      | some res => { result := .ok res, state := st', events := [gateEv, .transportCall req] }
      | none =>
        { result := .error (.schemaValidation "tools/call response body did not match the expected result shape")
        , state := st'
        , events := [gateEv, .transportCall req] }
    | .error e =>
      match embeddedErrorResult e with
      | some res => { result := .ok res, state := st', events := [gateEv, .transportCall req] }
      | none =>
        { result := .error (.transport e), state := st', events := [gateEv, .transportCall req] }

/-- Modelled from the spec: invoking a wrapper's callable forwards to the
proxy with the captured unnamespaced remote name (spec section 3). -/
def invokeWrapper (s : OneMcpServer) (w : ServerTool) (args : JSON)
    (ctx : InvocationContext) (env : Env) (st : ProxyState) : CallOutcome :=
  callTool s w.remoteName args ctx env st

/-- One operation issued against a proxy instance, for reasoning about
interleaved request sequences. -/
inductive Op where
  | discover
  | invoke (remoteName : String) (args : JSON) (ctx : InvocationContext)

/-- Runs a sequence of operations against one proxy instance, threading the
per-instance state and concatenating the event traces in program order. -/
def runOps (s : OneMcpServer) (env : Env) : List Op → ProxyState → ProxyState × List Event
  | [], st => (st, [])
  | .discover :: rest, st =>
    let out := listTools s env st
    let next := runOps s env rest out.state
    (next.1, out.events ++ next.2)
  | .invoke rn args ctx :: rest, st =>
    let out := callTool s rn args ctx env st
    let next := runOps s env rest out.state
    (next.1, out.events ++ next.2)

/-- The envelope ids of the outbound transport requests in a trace, in
program order. -/
def envelopeIds (evs : List Event) : List Nat :=
  evs.filterMap (fun ev =>
    match ev with
    | .transportCall req => some req.body.id
    | _ => none)

/-- Embedded from `src/src/mcp/onemcp/index.ts`: the server registry
`ONEMCP_SERVERS`, a constant mapping built once at module load.  The two
origin URLs come from `api.ts`, which is outside the provided sources, so
they are parameters here; the `developerknowledge` entry is constructed
with `{requiresAuth: true}` only, leaving `requiresProject` absent. -/
def ONEMCP_SERVERS (developerKnowledgeOrigin firestoreOrigin : String) :
    List (String × OneMcpServer) :=
  [ ("developerknowledge",
     { feature := "developerknowledge"
     , originUrl := developerKnowledgeOrigin
     , accessPolicy := { requiresAuth := true, requiresProject := none } })
  , ("firestore",
     { feature := "firestore"
     , originUrl := firestoreOrigin
     , accessPolicy := { requiresAuth := true, requiresProject := some true } }) ]

/-- Embedded from `src/src/firebase_studio/migrate.ts` (`writeAgyConfigs`):
the filter loop that drops every setting whose key starts with `IDX.`. -/
def cleanSettings (settings : List (String × JSON)) : List (String × JSON) :=
  settings.filter (fun kv => !(strHasPrefix "IDX." kv.1))

/-- JavaScript object assignment `o[k] = v` on an insertion-ordered
association list: an existing key keeps its position and gets the new
value; a new key is appended. -/
def setKey (l : List (String × JSON)) (k : String) (v : JSON) : List (String × JSON) :=
  if l.any (fun kv => kv.1 == k) then
    l.map (fun kv => if kv.1 == k then (k, v) else kv)
  else
    l ++ [(k, v)]

/-- Embedded from `src/src/firebase_studio/migrate.ts` (`writeAgyConfigs`):
the settings object written to `.vscode/settings.json`.  `parsed` is the
parse of the existing file, `none` when it is missing or unparseable (the
catch leaves `settings = {}`); the `IDX.`-prefixed keys are dropped and
`workbench.startupEditor` is assigned `"readme"`. -/
def writeAgySettings (parsed : Option (List (String × JSON))) : List (String × JSON) :=
  setKey (cleanSettings (parsed.getD [])) "workbench.startupEditor" (.str "readme")

/-- The proxy instance exercised by the unit tests: feature `auth`, origin
`https://example.com`, access policy `{requiresAuth: false,
requiresProject: true}`. -/
def sampleServer : OneMcpServer :=
  { feature := "auth"
  , originUrl := "https://example.com"
  , accessPolicy := { requiresAuth := false, requiresProject := some true } }

/-- The remote tool descriptor of the unit tests, as raw JSON. -/
def sampleDescriptorJSON : JSON :=
  .obj [ ("name", .str "test_tool")
       , ("description", .str "A test tool")
       , ("inputSchema", .obj [("type", .str "object"), ("properties", .obj [])]) ]

/-- A well-formed discovery response body holding one descriptor. -/
def sampleListBody : JSON :=
  .obj [("result", .obj [("tools", .arr [sampleDescriptorJSON])])]

/-- A well-formed invocation response body. -/
def sampleCallBody : JSON :=
  .obj [("result", .obj [("content", .arr [.obj [("type", .str "text"), ("text", .str "success")]])])]

/-- A response body matching no expected shape. -/
def invalidBody : JSON := .obj [("invalid", .str "schema")]

/-- The invocation context of the unit tests. -/
def sampleCtx : InvocationContext := { projectId := some "test-project" }

/-- A plain network rejection carrying no structured context body. -/
def plainError : TransportError :=
  { message := "Network Error", status := none, contextBody := none }

/-- The context body of a transport rejection that embeds a tool-level
error result. -/
def embeddedErrorBody : JSON :=
  .obj [("result", .obj [ ("isError", .bool true)
                        , ("content", .arr [.obj [("type", .str "text"), ("text", .str "remote error")]]) ])]

/-- A transport rejection embedding a tool-level error result. -/
def wrappedToolError : TransportError :=
  { message := "Remote tool error", status := some 400, contextBody := some embeddedErrorBody }

/-- An environment whose gate passes and whose transport answers every
request with the given body. -/
def envOk (body : JSON) : Env :=
  { gate := fun _ _ _ _ => .ok (), transport := fun _ => .ok body }

/-- An environment whose gate passes and whose transport rejects every
request with the given error. -/
def envReject (e : TransportError) : Env :=
  { gate := fun _ _ _ _ => .ok (), transport := fun _ => .error e }

/-- An environment whose gate rejects every check with the given error. -/
def envGateFail (e : GateError) : Env :=
  { gate := fun _ _ _ _ => .error e, transport := fun _ => .error plainError }

/-- The remote tool descriptor of the unit tests, parsed. -/
def sampleDescriptor : RemoteToolDescriptor :=
  { name := "test_tool"
  , description := some "A test tool"
  , inputSchema := .obj [("type", .str "object"), ("properties", .obj [])] }

theorem callTool_events_head (s : OneMcpServer) (rn : String) (args : JSON)
    (ctx : InvocationContext) (env : Env) (st : ProxyState) :
    (callTool s rn args ctx env st).events.head? =
      some (.gateCall ctx.projectId s.originUrl s.feature s.accessPolicy.requiresProject) := by
  simp only [callTool]
  split
  · rfl
  · split
    · split <;> rfl
    · split <;> rfl

theorem callTool_transport_req (s : OneMcpServer) (rn : String) (args : JSON)
    (ctx : InvocationContext) (env : Env) (st : ProxyState) :
    ∀ req, Event.transportCall req ∈ (callTool s rn args ctx env st).events →
      req = invocationRequest s rn args ctx st := by
  intro req hreq
  simp only [callTool] at hreq
  split at hreq
  · simp at hreq
  · split at hreq
    · split at hreq <;> simp_all
    · split at hreq <;> simp_all

/-- Claim C2: every invocation calls the Precondition Gate with exactly
`(context.projectId, originUrl, feature, accessPolicy.requiresProject)`
before any transport request (the gate check is the first collaborator call
of the trace); when the gate fails, the invocation rejects with the gate's
error propagated unchanged and the trace holds no transport call at all. -/
theorem callTool_gate_precedes_transport (s : OneMcpServer) (rn : String) (args : JSON)
    (ctx : InvocationContext) (env : Env) (st : ProxyState) :
    (callTool s rn args ctx env st).events.head? =
      some (.gateCall ctx.projectId s.originUrl s.feature s.accessPolicy.requiresProject) ∧
    ∀ e, env.gate ctx.projectId s.originUrl s.feature s.accessPolicy.requiresProject = .error e →
      (callTool s rn args ctx env st).result = .error (.gate e) ∧
      (callTool s rn args ctx env st).events =
        [.gateCall ctx.projectId s.originUrl s.feature s.accessPolicy.requiresProject] := by
  refine ⟨callTool_events_head s rn args ctx env st, ?_⟩
  intro e he
  exact ⟨by simp [callTool, he], by simp [callTool, he]⟩

/-- Witness for C2 at the unit tests' configuration: the gate event heads
the trace, and a failing gate rejects the call with its own error. -/
theorem callTool_gate_precedes_transport_witness :
    (callTool sampleServer "test_tool" (.obj []) sampleCtx
        (envGateFail ⟨"gate failure"⟩) ⟨0⟩).events.head? =
      some (.gateCall (some "test-project") "https://example.com" "auth" (some true)) ∧
    (callTool sampleServer "test_tool" (.obj []) sampleCtx
        (envGateFail ⟨"gate failure"⟩) ⟨0⟩).result = .error (.gate ⟨"gate failure"⟩) := by
  have h := callTool_gate_precedes_transport sampleServer "test_tool" (.obj []) sampleCtx
    (envGateFail ⟨"gate failure"⟩) ⟨0⟩
  exact ⟨h.1, (h.2 ⟨"gate failure"⟩ rfl).1⟩

/-- Claim C1: when the transport call rejects with an error whose
structured context body matches `{result: {isError: true, content:
[...]}}`, the invocation resolves successfully with exactly that embedded
result; any other rejection (a plain network error included) is rethrown
unchanged, with no wrapping or enrichment. -/
theorem callTool_error_unwrap (s : OneMcpServer) (rn : String) (args : JSON)
    (ctx : InvocationContext) (env : Env) (st : ProxyState) (e : TransportError)
    (hg : env.gate ctx.projectId s.originUrl s.feature s.accessPolicy.requiresProject = .ok ())
    (ht : env.transport (invocationRequest s rn args ctx st) = .error e) :
    (∀ b res, e.contextBody = some b → parseInvokeSuccessBody b = some res →
        res.isError = some true → (callTool s rn args ctx env st).result = .ok res) ∧
    (embeddedErrorResult e = none →
        (callTool s rn args ctx env st).result = .error (.transport e)) := by
  constructor
  · intro b res hb hp hie
    have hemb : embeddedErrorResult e = some res := by
      simp only [embeddedErrorResult, hb, hp, hie, if_pos]
    simp only [callTool, hg, ht, hemb]
  · intro hemb
    simp only [callTool, hg, ht, hemb]

/-- Witness for C1: the unit tests' wrapped tool error resolves to the
embedded `{isError: true, content: [...]}` result, while a plain network
error is rethrown as-is. -/
theorem callTool_error_unwrap_witness :
    (callTool sampleServer "test_tool" (.obj []) sampleCtx
        (envReject wrappedToolError) ⟨1⟩).result =
      .ok { content := [.obj [("type", .str "text"), ("text", .str "remote error")]]
          , isError := some true } ∧
    (callTool sampleServer "test_tool" (.obj []) sampleCtx
        (envReject plainError) ⟨1⟩).result = .error (.transport plainError) := by
  constructor
  · exact (callTool_error_unwrap sampleServer "test_tool" (.obj []) sampleCtx
      (envReject wrappedToolError) ⟨1⟩ wrappedToolError rfl rfl).1 embeddedErrorBody _ rfl rfl rfl
  · exact (callTool_error_unwrap sampleServer "test_tool" (.obj []) sampleCtx
      (envReject plainError) ⟨1⟩ plainError rfl rfl).2 rfl

/-- Claim C4: a successful discovery response with N descriptors yields
exactly N wrappers in the same order (the wrapper list is the descriptor
list mapped through `wrapTool`), each named by textual concatenation
`<feature>_<remoteName>`, and each wrapper's metadata equals
`{requiresAuth, requiresProject, feature}` from the owning instance's
configuration, independent of the remote tool's own content. -/
theorem listTools_discovery_success (s : OneMcpServer) (env : Env) (st : ProxyState)
    (body : JSON) (descs : List RemoteToolDescriptor)
    (ht : env.transport (discoveryRequest s st) = .ok body)
    (hp : parseListToolsBody body = some descs) :
    (listTools s env st).result = .ok (descs.map (wrapTool s)) ∧
    (descs.map (wrapTool s)).length = descs.length ∧
    (∀ d : RemoteToolDescriptor, (wrapTool s d).name = s.feature ++ "_" ++ d.name) ∧
    (∀ d : RemoteToolDescriptor, (wrapTool s d).meta =
      { requiresAuth := s.accessPolicy.requiresAuth
      , requiresProject := s.accessPolicy.requiresProject
      , feature := s.feature }) := by
  refine ⟨?_, by simp, fun d => rfl, fun d => rfl⟩
  simp only [listTools, ht, hp]

/-- Witness for C4: the unit tests' discovery response yields one wrapper
named `auth_test_tool` with the instance's metadata. -/
theorem listTools_discovery_success_witness :
    (listTools sampleServer (envOk sampleListBody) ⟨0⟩).result =
      .ok [{ name := "auth_test_tool"
           , description := some "A test tool"
           , inputSchema := .obj [("type", .str "object"), ("properties", .obj [])]
           , meta := { requiresAuth := false, requiresProject := some true, feature := "auth" }
           , remoteName := "test_tool" }] ∧
    (wrapTool sampleServer sampleDescriptor).name = "auth_test_tool" := by
  have h := listTools_discovery_success sampleServer (envOk sampleListBody) ⟨0⟩
    sampleListBody [sampleDescriptor] rfl rfl
  exact ⟨h.1, h.2.2.1 sampleDescriptor⟩

/-- Claim C5: every transport request issued by an invocation is the
`invocationRequest`; its headers carry `x-goog-user-project` set to exactly
the context's project id when one is defined, and contain no
`x-goog-user-project` key at all when the project id is absent. -/
theorem callTool_project_header (s : OneMcpServer) (rn : String) (args : JSON)
    (ctx : InvocationContext) (env : Env) (st : ProxyState) :
    (∀ req, Event.transportCall req ∈ (callTool s rn args ctx env st).events →
        req = invocationRequest s rn args ctx st) ∧
    (∀ pid, ctx.projectId = some pid →
        (invocationRequest s rn args ctx st).headers.lookup "x-goog-user-project" = some pid) ∧
    (ctx.projectId = none →
        ∀ v, ("x-goog-user-project", v) ∉ (invocationRequest s rn args ctx st).headers) := by
  refine ⟨callTool_transport_req s rn args ctx env st, ?_, ?_⟩
  · intro pid hp
    simp [invocationRequest, invocationHeaders, hp, List.lookup]
  · intro hp v
    simp [invocationRequest, invocationHeaders, hp]

/-- Witness for C5: with project id `test-project` the header is attached
with that value; with no project id the header key is absent. -/
theorem callTool_project_header_witness :
    (invocationRequest sampleServer "t" (.obj []) sampleCtx ⟨0⟩).headers.lookup
      "x-goog-user-project" = some "test-project" ∧
    ("x-goog-user-project", "x") ∉
      (invocationRequest sampleServer "t" (.obj []) { projectId := none } ⟨0⟩).headers := by
  exact ⟨(callTool_project_header sampleServer "t" (.obj []) sampleCtx
            (envOk sampleCallBody) ⟨0⟩).2.1 "test-project" rfl,
         (callTool_project_header sampleServer "t" (.obj []) { projectId := none }
            (envOk sampleCallBody) ⟨0⟩).2.2 rfl "x"⟩

/-- Claim C6: every transport request issued by invoking a wrapper carries
the envelope `{jsonrpc: "2.0", id: <numeric counter value>, method:
"tools/call"}` with `params.name` the unnamespaced remote name captured at
discovery and `params.arguments` the caller's arguments verbatim; the
namespaced wrapper name is never equal to the remote name it forwards. -/
theorem invokeWrapper_envelope (s : OneMcpServer) (d : RemoteToolDescriptor) (args : JSON)
    (ctx : InvocationContext) (env : Env) (st : ProxyState) :
    (∀ req, Event.transportCall req ∈ (invokeWrapper s (wrapTool s d) args ctx env st).events →
        req.body.jsonrpc = "2.0" ∧ req.body.method = "tools/call" ∧
        req.body.id = st.counter + 1 ∧
        req.body.params.lookup "name" = some (.str d.name) ∧
        req.body.params.lookup "arguments" = some args) ∧
    (wrapTool s d).remoteName = d.name ∧
    (wrapTool s d).name ≠ d.name := by
  refine ⟨?_, rfl, ?_⟩
  · intro req hreq
    have hr := callTool_transport_req s (wrapTool s d).remoteName args ctx env st req hreq
    subst hr
    exact ⟨rfl, rfl, rfl, rfl, rfl⟩
  · intro h
    have h2 : (s.feature ++ "_" ++ d.name).length = d.name.length := congrArg String.length h
    rw [String.length_append, String.length_append] at h2
    have h3 : ("_" : String).length = 1 := rfl
    rw [h3] at h2
    omega

/-- Witness for C6: the unit tests' wrapper forwards `test_tool` (not
`auth_test_tool`) with the caller's arguments and a numeric id. -/
theorem invokeWrapper_envelope_witness :
    (invocationRequest sampleServer "test_tool" (.obj [("arg", .str "val")]) sampleCtx
        ⟨0⟩).body.params.lookup "name" = some (.str "test_tool") ∧
    (invocationRequest sampleServer "test_tool" (.obj [("arg", .str "val")]) sampleCtx
        ⟨0⟩).body.id = 1 ∧
    (wrapTool sampleServer sampleDescriptor).name ≠ "test_tool" := by
  have h := invokeWrapper_envelope sampleServer sampleDescriptor
    (.obj [("arg", .str "val")]) sampleCtx (envReject plainError) ⟨0⟩
  have hm : Event.transportCall (invocationRequest sampleServer "test_tool"
      (.obj [("arg", .str "val")]) sampleCtx ⟨0⟩) ∈
      (invokeWrapper sampleServer (wrapTool sampleServer sampleDescriptor)
        (.obj [("arg", .str "val")]) sampleCtx (envReject plainError) ⟨0⟩).events :=
    List.Mem.tail _ (List.Mem.head _)
  have hc := h.1 _ hm
  exact ⟨hc.2.2.2.1, hc.2.2.1, h.2.2⟩

/-- Claim C7: when the discovery transport call rejects, `listTools` fails
with a Remote Fetch Error whose message identifies the failed remote tools
fetch. -/
theorem listTools_remote_fetch_error (s : OneMcpServer) (env : Env) (st : ProxyState)
    (e : TransportError)
    (ht : env.transport (discoveryRequest s st) = .error e) :
    (listTools s env st).result =
      .error (.remoteFetch ("Failed to fetch remote tools from " ++ s.originUrl)) ∧
    strHasPrefix "Failed to fetch remote tools"
      ("Failed to fetch remote tools from " ++ s.originUrl) = true := by
  constructor
  · simp only [listTools, ht]
  · rw [strHasPrefix, String.data_append]
    have h1 : "Failed to fetch remote tools".data <+: "Failed to fetch remote tools from ".data := by
      decide
    exact List.isPrefixOf_iff_prefix.mpr (h1.trans (List.prefix_append _ _))

/-- Witness for C7: a network rejection makes the sample instance's
discovery fail with the identifying Remote Fetch Error. -/
theorem listTools_remote_fetch_error_witness :
    (listTools sampleServer (envReject plainError) ⟨0⟩).result =
      .error (.remoteFetch "Failed to fetch remote tools from https://example.com") ∧
    strHasPrefix "Failed to fetch remote tools"
      "Failed to fetch remote tools from https://example.com" = true := by
  have h := listTools_remote_fetch_error sampleServer (envReject plainError) ⟨0⟩ plainError rfl
  exact ⟨h.1, h.2⟩

/-- Claim C8: a response body that does not match the expected shape is
surfaced as a Schema Validation Error, never silently coerced: a discovery
body without `result.tools` as a descriptor sequence fails `listTools`,
and a successful invocation response whose body lacks the expected result
shape fails the invocation. -/
theorem schema_validation_failures (s : OneMcpServer) (rn : String) (args : JSON)
    (ctx : InvocationContext) (env : Env) (st : ProxyState) (bodyL bodyC : JSON)
    (hL : env.transport (discoveryRequest s st) = .ok bodyL)
    (hLp : parseListToolsBody bodyL = none)
    (hg : env.gate ctx.projectId s.originUrl s.feature s.accessPolicy.requiresProject = .ok ())
    (hC : env.transport (invocationRequest s rn args ctx st) = .ok bodyC)
    (hCp : parseInvokeSuccessBody bodyC = none) :
    (listTools s env st).result =
      .error (.schemaValidation "tools/list response body did not match the expected shape") ∧
    (callTool s rn args ctx env st).result =
      .error (.schemaValidation "tools/call response body did not match the expected result shape") := by
  constructor
  · simp only [listTools, hL, hLp]
  · simp only [callTool, hg, hC, hCp]

/-- Witness for C8: the unit tests' `{invalid: "schema"}` body fails both
discovery and invocation with a schema error. -/
theorem schema_validation_failures_witness :
    (listTools sampleServer (envOk invalidBody) ⟨0⟩).result =
      .error (.schemaValidation "tools/list response body did not match the expected shape") ∧
    (callTool sampleServer "test_tool" (.obj []) sampleCtx (envOk invalidBody) ⟨0⟩).result =
      .error (.schemaValidation "tools/call response body did not match the expected result shape") := by
  exact schema_validation_failures sampleServer "test_tool" (.obj []) sampleCtx
    (envOk invalidBody) ⟨0⟩ invalidBody invalidBody rfl rfl rfl rfl rfl

/-- Claim C9: the server registry holds exactly the two entries
`developerknowledge` and `firestore`, in that order; the
`developerknowledge` instance is built with `{requiresAuth: true}` only,
leaving `requiresProject` absent (`none`, not `some false`), so every
wrapper metadata and every Precondition Gate call it produces carries an
absent `requiresProject`. -/
theorem onemcp_registry_shape (dko fso : String) :
    ((ONEMCP_SERVERS dko fso).map Prod.fst = ["developerknowledge", "firestore"]) ∧
    ∀ srv, (ONEMCP_SERVERS dko fso).lookup "developerknowledge" = some srv →
      srv.accessPolicy = { requiresAuth := true, requiresProject := none } ∧
      (∀ d, (wrapTool srv d).meta.requiresProject = none) ∧
      (∀ rn args ctx env st, (callTool srv rn args ctx env st).events.head? =
         some (.gateCall ctx.projectId srv.originUrl srv.feature none)) := by
  refine ⟨rfl, ?_⟩
  intro srv h
  have he : (ONEMCP_SERVERS dko fso).lookup "developerknowledge" =
      some { feature := "developerknowledge", originUrl := dko
           , accessPolicy := { requiresAuth := true, requiresProject := none } } := rfl
  rw [he] at h
  injection h with h
  subst h
  exact ⟨rfl, fun d => rfl, fun rn args ctx env st => callTool_events_head _ rn args ctx env st⟩

/-- Witness for C9: at concrete origins, the registry's keys are the two
features and the `developerknowledge` wrapper metadata carries an absent
`requiresProject`. -/
theorem onemcp_registry_shape_witness :
    ((ONEMCP_SERVERS "https://dk.example" "https://fs.example").map Prod.fst =
      ["developerknowledge", "firestore"]) ∧
    (wrapTool { feature := "developerknowledge", originUrl := "https://dk.example"
              , accessPolicy := { requiresAuth := true, requiresProject := none } }
      sampleDescriptor).meta.requiresProject = none := by
  have h := onemcp_registry_shape "https://dk.example" "https://fs.example"
  exact ⟨h.1, (h.2 _ rfl).2.1 sampleDescriptor⟩

/-- Bound on one or more proxy steps: the counter never decreases, and the
issued envelope ids are strictly increasing and lie strictly above the
incoming counter and at most at the outgoing counter. -/
def StepBound (st st' : ProxyState) (ids : List Nat) : Prop :=
  st.counter ≤ st'.counter ∧ List.Pairwise (· < ·) ids ∧
  ∀ i ∈ ids, st.counter < i ∧ i ≤ st'.counter

theorem stepBound_trans {st₁ st₂ st₃ : ProxyState} {ids₁ ids₂ : List Nat}
    (h₁ : StepBound st₁ st₂ ids₁) (h₂ : StepBound st₂ st₃ ids₂) :
    StepBound st₁ st₃ (ids₁ ++ ids₂) := by
  obtain ⟨hle₁, hp₁, hb₁⟩ := h₁
  obtain ⟨hle₂, hp₂, hb₂⟩ := h₂
  refine ⟨hle₁.trans hle₂, ?_, ?_⟩
  · rw [List.pairwise_append]
    exact ⟨hp₁, hp₂, fun a ha b hb => lt_of_le_of_lt (hb₁ a ha).2 (hb₂ b hb).1⟩
  · intro i hi
    rcases List.mem_append.mp hi with h | h
    · exact ⟨(hb₁ i h).1, le_trans (hb₁ i h).2 hle₂⟩
    · exact ⟨lt_of_le_of_lt hle₁ (hb₂ i h).1, (hb₂ i h).2⟩

theorem listTools_state_counter (s : OneMcpServer) (env : Env) (st : ProxyState) :
    (listTools s env st).state.counter = st.counter + 1 := by
  simp only [listTools]
  split
  · rfl
  · split <;> rfl

theorem listTools_ids (s : OneMcpServer) (env : Env) (st : ProxyState) :
    envelopeIds (listTools s env st).events = [st.counter + 1] := by
  simp only [listTools]
  split
  · rfl
  · split <;> rfl

theorem callTool_state_ids (s : OneMcpServer) (rn : String) (args : JSON)
    (ctx : InvocationContext) (env : Env) (st : ProxyState) :
    ((callTool s rn args ctx env st).state = st ∧
      envelopeIds (callTool s rn args ctx env st).events = []) ∨
    ((callTool s rn args ctx env st).state.counter = st.counter + 1 ∧
      envelopeIds (callTool s rn args ctx env st).events = [st.counter + 1]) := by
  simp only [callTool]
  split
  · exact Or.inl ⟨rfl, rfl⟩
  · right
    split
    · split <;> exact ⟨rfl, rfl⟩
    · split <;> exact ⟨rfl, rfl⟩

theorem stepBound_listTools (s : OneMcpServer) (env : Env) (st : ProxyState) :
    StepBound st (listTools s env st).state (envelopeIds (listTools s env st).events) := by
  rw [listTools_ids]
  refine ⟨?_, by simp, ?_⟩
  · rw [listTools_state_counter]; omega
  · intro i hi
    rw [List.mem_singleton] at hi
    subst hi
    rw [listTools_state_counter]
    omega

theorem stepBound_callTool (s : OneMcpServer) (rn : String) (args : JSON)
    (ctx : InvocationContext) (env : Env) (st : ProxyState) :
    StepBound st (callTool s rn args ctx env st).state
      (envelopeIds (callTool s rn args ctx env st).events) := by
  rcases callTool_state_ids s rn args ctx env st with ⟨hst, hids⟩ | ⟨hst, hids⟩
  · rw [hst, hids]
    exact ⟨le_refl _, by simp, by simp⟩
  · rw [hids]
    refine ⟨?_, by simp, ?_⟩
    · rw [hst]; omega
    · intro i hi
      rw [List.mem_singleton] at hi
      subst hi
      exact ⟨by omega, by rw [hst]⟩

theorem stepBound_runOps (s : OneMcpServer) (env : Env) (ops : List Op) (st : ProxyState) :
    StepBound st (runOps s env ops st).1 (envelopeIds (runOps s env ops st).2) := by
  induction ops generalizing st with
  | nil => exact ⟨le_refl _, by simp [runOps, envelopeIds], by simp [runOps, envelopeIds]⟩
  | cons op rest ih =>
    cases op with
    | discover =>
      have h := stepBound_trans (stepBound_listTools s env st) (ih (listTools s env st).state)
      simpa [runOps, envelopeIds, List.filterMap_append] using h
    | invoke rn args ctx =>
      have h := stepBound_trans (stepBound_callTool s rn args ctx env st)
        (ih (callTool s rn args ctx env st).state)
      simpa [runOps, envelopeIds, List.filterMap_append] using h

/-- Claim C3: over any sequence of discovery and invocation operations
against one proxy instance, the envelope ids of the outbound requests are
pairwise distinct and strictly increasing (monotonic counter, incremented
before each request, never reused); in particular every `tools/call`
envelope id is exactly the counter value of the state it was issued from,
plus one. -/
theorem proxy_request_ids_monotonic (s : OneMcpServer) (env : Env) (ops : List Op)
    (st : ProxyState) :
    List.Pairwise (· < ·) (envelopeIds (runOps s env ops st).2) ∧
    (∀ i ∈ envelopeIds (runOps s env ops st).2, st.counter < i) ∧
    ∀ rn args ctx st₀ i, i ∈ envelopeIds (callTool s rn args ctx env st₀).events →
      i = st₀.counter + 1 := by
  refine ⟨(stepBound_runOps s env ops st).2.1,
    fun i hi => ((stepBound_runOps s env ops st).2.2 i hi).1, ?_⟩
  intro rn args ctx st₀ i hi
  rcases callTool_state_ids s rn args ctx env st₀ with ⟨_, hids⟩ | ⟨_, hids⟩
  · rw [hids] at hi; cases hi
  · rw [hids] at hi
    exact List.mem_singleton.mp hi

/-- Witness for C3: a discovery followed by an invocation yields the ids
`[1, 2]`, strictly increasing, and from a counter at five the next
`tools/call` id is six. -/
theorem proxy_request_ids_monotonic_witness :
    envelopeIds (runOps sampleServer (envReject plainError)
      [.discover, .invoke "t" (.obj []) sampleCtx] ⟨0⟩).2 = [1, 2] ∧
    List.Pairwise (· < ·) (envelopeIds (runOps sampleServer (envReject plainError)
      [.discover, .invoke "t" (.obj []) sampleCtx] ⟨0⟩).2) ∧
    (6 : Nat) = 5 + 1 := by
  have h := proxy_request_ids_monotonic sampleServer (envReject plainError)
    [.discover, .invoke "t" (.obj []) sampleCtx] ⟨0⟩
  refine ⟨rfl, h.1, h.2.2 "t" (.obj []) sampleCtx ⟨5⟩ 6 ?_⟩
  show (6 : Nat) ∈ [6]
  simp


theorem lookup_map_set (l : List (String × JSON)) (k : String) (v : JSON)
    (h : l.any (fun kv => kv.1 == k) = true) :
    (l.map (fun kv => if kv.1 == k then (k, v) else kv)).lookup k = some v := by
  induction l with
  | nil => simp at h
  | cons a l ih =>
    obtain ⟨a1, a2⟩ := a
    rw [List.any_cons, Bool.or_eq_true] at h
    by_cases hk : (a1 == k) = true
    · rw [List.map_cons, if_pos hk]
      simp [List.lookup]
    · have hk' : (a1 == k) = false := Bool.eq_false_iff.mpr hk
      have hne : k ≠ a1 := by
        intro hh
        exact hk (by rw [hh]; exact beq_self_eq_true a1)
      have hsym : (k == a1) = false := beq_eq_false_iff_ne.mpr hne
      rw [List.map_cons, if_neg hk]
      rcases h with h | h
      · rw [hk'] at h; cases h
      · simp only [List.lookup, hsym]
        exact ih h

theorem lookup_append_set (l : List (String × JSON)) (k : String) (v : JSON)
    (h : l.any (fun kv => kv.1 == k) = false) :
    (l ++ [(k, v)]).lookup k = some v := by
  induction l with
  | nil => simp [List.lookup]
  | cons a l ih =>
    obtain ⟨a1, a2⟩ := a
    rw [List.any_cons, Bool.or_eq_false_iff] at h
    obtain ⟨h1, h2⟩ := h
    have hne : k ≠ a1 := by
      intro hh
      rw [beq_eq_false_iff_ne] at h1
      exact h1 hh.symm
    have hsym : (k == a1) = false := beq_eq_false_iff_ne.mpr hne
    rw [List.cons_append]
    simp only [List.lookup, hsym]
    exact ih h2

theorem setKey_lookup (l : List (String × JSON)) (k : String) (v : JSON) :
    (setKey l k v).lookup k = some v := by
  rw [setKey]
  by_cases h : l.any (fun kv => kv.1 == k) = true
  · rw [if_pos h]
    exact lookup_map_set l k v h
  · rw [if_neg h]
    exact lookup_append_set l k v (Bool.eq_false_iff.mpr h)

theorem setKey_mem_of_ne (l : List (String × JSON)) (k : String) (v : JSON)
    (k' : String) (v' : JSON) (hne : k' ≠ k) (hm : (k', v') ∈ l) :
    (k', v') ∈ setKey l k v := by
  rw [setKey]
  split
  · refine List.mem_map.mpr ⟨(k', v'), hm, if_neg ?_⟩
    intro hh
    exact hne (by simpa using hh)
  · exact List.mem_append_left _ hm

theorem setKey_mem_cases (l : List (String × JSON)) (k : String) (v : JSON)
    (kv : String × JSON) (h : kv ∈ setKey l k v) : kv = (k, v) ∨ kv ∈ l := by
  rw [setKey] at h
  split at h
  · rcases List.mem_map.mp h with ⟨a, ha, hfa⟩
    by_cases hk : (a.1 == k) = true
    · left
      rw [if_pos hk] at hfa
      exact hfa.symm
    · right
      rw [if_neg hk] at hfa
      exact hfa ▸ ha
  · rcases List.mem_append.mp h with h | h
    · right; exact h
    · left
      simpa using h

/-- Counterexample for C10 as stated: a pre-existing
`workbench.startupEditor` key does not start with `IDX.`, yet it is not
preserved with its original value — the rewrite overwrites it with
`"readme"`. -/
theorem writeAgySettings_not_value_preserving :
    ¬ (∀ settings : List (String × JSON), ∀ k v, (k, v) ∈ settings →
        strHasPrefix "IDX." k = false → (k, v) ∈ writeAgySettings (some settings)) := by
  intro h
  have hmem := h [("workbench.startupEditor", JSON.str "none")]
    "workbench.startupEditor" (JSON.str "none") (by simp) (by decide)
  have hcomp : writeAgySettings (some [("workbench.startupEditor", JSON.str "none")]) =
      [("workbench.startupEditor", JSON.str "readme")] := rfl
  rw [hcomp] at hmem
  simp at hmem

/-- Claim C10 (amended): when the migration rewrites
`.vscode/settings.json`, every pre-existing key that does not start with
`IDX.` and is not `workbench.startupEditor` is preserved with its original
value; no key starting with `IDX.` survives; `workbench.startupEditor` is
set to `"readme"`, overwriting any prior value; and when the existing file
is missing or unparseable the result holds only the startup-editor
preference. -/
theorem writeAgySettings_rewrite (settings : List (String × JSON)) :
    (∀ k v, (k, v) ∈ settings → strHasPrefix "IDX." k = false →
        k ≠ "workbench.startupEditor" → (k, v) ∈ writeAgySettings (some settings)) ∧
    (∀ kv ∈ writeAgySettings (some settings), strHasPrefix "IDX." kv.1 = false) ∧
    ((writeAgySettings (some settings)).lookup "workbench.startupEditor" =
        some (.str "readme")) ∧
    (writeAgySettings none = [("workbench.startupEditor", JSON.str "readme")]) := by
  refine ⟨?_, ?_, ?_, rfl⟩
  · intro k v hm hpref hne
    have hclean : (k, v) ∈ cleanSettings settings := by
      rw [cleanSettings]
      refine List.mem_filter.mpr ⟨hm, ?_⟩
      simp [hpref]
    exact setKey_mem_of_ne _ _ _ _ _ hne hclean
  · intro kv hkv
    rcases setKey_mem_cases _ _ _ _ hkv with h | h
    · rw [h]; decide
    · rw [cleanSettings] at h
      have := (List.mem_filter.mp h).2
      simpa using this
  · exact setKey_lookup _ _ _

/-- Witness for C10 (amended): a concrete settings file with one `IDX.` key
and one ordinary key keeps the ordinary key, drops the `IDX.` key, and
gains the startup-editor preference. -/
theorem writeAgySettings_rewrite_witness :
    ("editor.fontSize", JSON.num 14) ∈
      writeAgySettings (some [("IDX.previewServer", JSON.str "on"), ("editor.fontSize", JSON.num 14)]) ∧
    (∀ kv ∈ writeAgySettings (some [("IDX.previewServer", JSON.str "on"), ("editor.fontSize", JSON.num 14)]),
        strHasPrefix "IDX." kv.1 = false) ∧
    (writeAgySettings (some [("IDX.previewServer", JSON.str "on"), ("editor.fontSize", JSON.num 14)])).lookup
      "workbench.startupEditor" = some (.str "readme") ∧
    writeAgySettings none = [("workbench.startupEditor", JSON.str "readme")] := by
  have h := writeAgySettings_rewrite
    [("IDX.previewServer", JSON.str "on"), ("editor.fontSize", JSON.num 14)]
  exact ⟨h.1 "editor.fontSize" (JSON.num 14) (by simp) (by decide) (by decide),
    h.2.1, h.2.2.1, h.2.2.2⟩
